import Mathlib

/- Shallow embedding of the oxc playground pipeline driver
   (napi/playground/src/lib.rs).  The external collaborators the driver calls
   (parser, semantic analyzer, linter, transformer, isolated-declarations
   generator, minifier, code generator, prettier, serde serializer) are
   modelled as an explicit environment of oracle functions; the driver logic
   itself (stage sequencing and gating, diagnostics aggregation, early exits,
   view rendering) is translated from the source. -/

namespace Playground

/- ===================== data model ===================== -/

/-- Byte-offset span (oxc_span Span); stop is the Rust field named end. -/
structure Span where
  start : Nat
  stop : Nat
deriving DecidableEq, Repr

/-- A labeled span inside a diagnostic (miette LabeledSpan: offset and len). -/
structure Label where
  offset : Nat
  len : Nat
deriving DecidableEq, Repr

/-- The diagnostic type stored in the sink (oxc_diagnostics OxcDiagnostic).
Severity and message are kept in their rendered (Debug / Display) string
forms, which is how lib.rs consumes them; labels is an optional list. -/
structure OxcDiag where
  severity : String
  message : String
  labels : Option (List Label)
deriving DecidableEq, Repr

/-- OxcDiagnostic.error(message): Error severity, message, no labels. -/
def OxcDiag.error (message : String) : OxcDiag :=
  { severity := "Error", message := message, labels := none }

/-- The napi-flattened diagnostic record (struct OxcDiagnostic in lib.rs);
stop is the Rust field named end. -/
structure FlatDiagnostic where
  start : Nat
  stop : Nat
  severity : String
  message : String
deriving DecidableEq, Repr

/-- Raw lexical comment kind (oxc_ast CommentKind). -/
inductive CommentKind where
  | line
  | block
deriving DecidableEq, Repr

/-- Output comment kind (enum CommentType in lib.rs). -/
inductive CommentType where
  | line
  | block
deriving DecidableEq, Repr

/-- Raw lexical comment from the parser: kind, full span, content span
(the content span excludes the delimiters). -/
structure RawComment where
  kind : CommentKind
  span : Span
  contentSpan : Span
deriving DecidableEq, Repr

/-- Output comment record (struct Comment in lib.rs); ctype is the Rust
field named type, stop is the Rust field named end. -/
structure Comment where
  ctype : CommentType
  value : String
  start : Nat
  stop : Nat
deriving DecidableEq, Repr

/-- oxc_span SourceType, restricted to the observations lib.rs makes of it:
the module kind and whether the file is a TypeScript declaration file. -/
structure SourceType where
  module : Bool
  tsDefinition : Bool
deriving DecidableEq, Repr

def SourceType.default : SourceType :=
  { module := true, tsDefinition := false }

def SourceType.withScript (st : SourceType) (yes : Bool) : SourceType :=
  if yes then { st with module := false } else st

def SourceType.withModule (st : SourceType) (yes : Bool) : SourceType :=
  if yes then { st with module := true } else st

def SourceType.isTypescriptDefinition (st : SourceType) : Bool :=
  st.tsDefinition

/-- The scope nesting structure of the parsed program as the AST visitor
reveals it through enter_scope / leave_scope: a scope id and its children. -/
inductive ScopeTree where
  | node : Nat → List ScopeTree → ScopeTree

/-- Resolved reference record (oxc syntax reference Reference). -/
structure ReferenceData where
  nodeId : Nat
  symbolId : Option Nat
  flags : Nat
deriving DecidableEq, Repr

/-- Query interface of the external semantic analyzer's Scoping table, one
field per accessor lib.rs calls.  The two Debug fields carry the rendered
flag text the Rust code obtains from format with the Debug formatter. -/
structure Scoping where
  symbolIds : List Nat
  symbolSpanOf : Nat → Span
  symbolNameOf : Nat → String
  symbolFlagsOf : Nat → Nat
  symbolScopeIdOf : Nat → Nat
  resolvedReferenceIdsOf : Nat → List Nat
  getReference : Nat → ReferenceData
  scopeFlagsDebug : Nat → String
  symbolFlagsDebug : Nat → String
  getBindings : Nat → List (String × Nat)

/-- The parsed program: an abstract body handle (used only by the Debug dump
of program.body), the spans stored in the tree, the lexical comments, the
scope structure, and the source text the parser consumed. -/
structure ProgramData where
  bodyId : Nat
  spans : List Span
  comments : List RawComment
  scopes : List ScopeTree
  sourceText : List Char

/-- ParserReturn: best-effort program, the syntax errors, the module record
(abstract handle). -/
structure ParserReturn where
  program : ProgramData
  errors : List OxcDiag
  moduleRecord : Nat

/-- oxc_parser ParseOptions with its Rust defaults. -/
structure ParseOptions where
  parseRegularExpression : Bool := false
  allowReturnOutsideFunction : Bool := false
  preserveParens : Bool := true
  allowV8Intrinsics : Bool := false
deriving DecidableEq, Repr

/-- oxc_codegen CodegenOptions, restricted to the fields lib.rs sets. -/
structure CodegenOptions where
  minify : Bool := false
  sourceMapPath : Option String := none
deriving DecidableEq, Repr

/-- oxc_minifier CompressOptions restricted to the two sub-options lib.rs
sets on top of all_false. -/
structure CompressOptions where
  dropConsole : Bool
  dropDebugger : Bool
deriving DecidableEq, Repr

def CompressOptions.allFalse : CompressOptions :=
  { dropConsole := false, dropDebugger := false }

/-- oxc_minifier MinifierOptions: mangle is modelled as the presence of the
default MangleOptions; compress as in lib.rs. -/
structure MinifierOptions where
  mangle : Bool
  compress : Option CompressOptions
deriving DecidableEq, Repr

/- The napi option records live in the crate file options.rs, which is not
   part of this source slice; their field lists are modelled from the spec
   (section 6) and from the field uses in lib.rs.  Every field is optional
   and defaults to none, matching the derived Rust Default. -/

/-- Modelled from the spec: OxcRunOptions (options.rs is missing from the
slice).  synDiags is the Rust field named syntax (run syntax diagnostics). -/
structure OxcRunOptions where
  synDiags : Option Bool := none
  lint : Option Bool := none
  scope : Option Bool := none
  symbol : Option Bool := none
  transform : Option Bool := none
  prettierFormat : Option Bool := none
  prettierIr : Option Bool := none
deriving DecidableEq, Repr

/-- Modelled from the spec: OxcParserOptions (options.rs is missing). -/
structure OxcParserOptions where
  sourceFilename : Option String := none
  sourceType : Option String := none
  allowReturnOutsideFunction : Option Bool := none
  preserveParens : Option Bool := none
  allowV8Intrinsics : Option Bool := none
deriving DecidableEq, Repr

/-- Modelled from the spec: OxcLinterOptions; lib.rs binds and ignores it. -/
structure OxcLinterOptions where
  unused : Unit := ()
deriving DecidableEq, Repr

/-- Modelled from the spec: OxcTransformerOptions (options.rs is missing). -/
structure OxcTransformerOptions where
  target : Option String := none
  isolatedDeclarations : Option Bool := none
deriving DecidableEq, Repr

/-- Modelled from the spec: OxcCodegenOptions (options.rs is missing). -/
structure OxcCodegenOptions where
  enableSourcemap : Option Bool := none
deriving DecidableEq, Repr

/-- Modelled from the spec: OxcCompressOptions (options.rs is missing). -/
structure OxcCompressOptions where
  dropConsole : Bool := false
  dropDebugger : Bool := false
deriving DecidableEq, Repr

/-- Modelled from the spec: OxcMinifierOptions (options.rs is missing). -/
structure OxcMinifierOptions where
  mangle : Option Bool := none
  compress : Option Bool := none
  whitespace : Option Bool := none
  compressOptions : Option OxcCompressOptions := none
deriving DecidableEq, Repr

/-- Modelled from the spec: OxcControlFlowOptions (options.rs is missing). -/
structure OxcControlFlowOptions where
  verbose : Option Bool := none
deriving DecidableEq, Repr

/-- Modelled from the spec: OxcOptions, the bundle run receives. -/
structure OxcOptions where
  run : Option OxcRunOptions := none
  parser : Option OxcParserOptions := none
  linter : Option OxcLinterOptions := none
  transformer : Option OxcTransformerOptions := none
  codegen : Option OxcCodegenOptions := none
  minifier : Option OxcMinifierOptions := none
  controlFlow : Option OxcControlFlowOptions := none
deriving DecidableEq, Repr

/-- The driver / result bundle (struct Oxc in lib.rs).  Derived Default sets
every string empty, the option none, the lists empty. -/
structure Oxc where
  astJson : String := ""
  ir : String := ""
  controlFlowGraph : String := ""
  symbolsJson : String := ""
  scopeText : String := ""
  codegenText : String := ""
  codegenSourcemapText : Option String := none
  formattedText : String := ""
  prettierFormattedText : String := ""
  prettierIrText : String := ""
  comments : List Comment := []
  diagnostics : List OxcDiag := []
deriving DecidableEq, Repr

def Oxc.default : Oxc := {}

/-- The configuration-dependent pipeline stages, recorded in invocation
order as an execution trace. -/
inductive Stage where
  | lintStage
  | scopeRender
  | symbolRender
  | isolatedDecl
  | idCodegen
  | transformStage
  | minifyStage
  | codegenStage
  | astConvert
deriving DecidableEq, Repr

/-- Outcome of one call to run: the napi result (error string on a fatal
serialization failure), the mutated driver state (field writes made before
the failure persist, exactly as they do through the Rust mutable self), and
the trace of configuration-dependent stages that executed. -/
structure RunOut where
  res : Except String Unit
  st : Oxc
  trace : List Stage

/-- Symbol-table projection row (struct Data inside get_symbols_text). -/
structure SymbolData where
  span : Span
  name : String
  flags : Nat
  scopeId : Nat
  resolvedReferences : List Nat
  references : List ReferenceData
deriving DecidableEq, Repr

/-- Oracle environment: one field per external collaborator call run makes.
Fixing an Env fixes the behaviour of every external stage; the theorems
quantify over it. -/
structure Env where
  sourceTypeFromPath : String → Option SourceType
  parse : String → ParseOptions → SourceType → ParserReturn
  semanticErrors : List OxcDiag
  semanticCfg : Option Unit
  cfgDebugDot : Bool → String
  scoping : Scoping
  moduleRecord : Nat
  lintDiags : List OxcDiag
  prettierFormatted : String
  prettierIrText : String
  serdeToStringPretty : List SymbolData → Except String String
  isolatedDeclarations : ProgramData → ProgramData × List OxcDiag
  fromTarget : String → Except String Nat
  transformRun : Nat → ProgramData → ProgramData × List OxcDiag
  minify : MinifierOptions → ProgramData → ProgramData × Option Nat
  codegen : Option Nat → CodegenOptions → ProgramData → String × Option String
  irDump : ProgramData → String
  astJsonOf : ProgramData → String

/- ===================== span coordinate translation ===================== -/

/-- Modelled from the spec: UTF-8 byte width of one character, used by the
external Utf8ToUtf16 converter (oxc_ast_visit, not part of this slice). -/
def utf8Size (c : Char) : Nat :=
  if c.val.toNat < 0x80 then 1
  else if c.val.toNat < 0x800 then 2
  else if c.val.toNat < 0x10000 then 3
  else 4

/-- Modelled from the spec: UTF-16 code-unit width of one character. -/
def utf16Size (c : Char) : Nat :=
  if c.val.toNat < 0x10000 then 1 else 2

/-- Total UTF-8 byte length of a text. -/
def byteLen (text : List Char) : Nat :=
  (text.map utf8Size).sum

/-- Modelled from the spec: the byte-offset to UTF-16 code-unit-offset
translation of Utf8ToUtf16 (section 4.3): a monotone scan of the source text
summing code-unit widths of the characters before the byte offset. -/
def convertOffset : List Char → Nat → Nat
  | _, 0 => 0
  | [], _ => 0
  | c :: cs, n + 1 => utf16Size c + convertOffset cs (n + 1 - utf8Size c)

/-- Span conversion: both endpoints through the offset translation. -/
def convertSpan (text : List Char) (sp : Span) : Span :=
  { start := convertOffset text sp.start, stop := convertOffset text sp.stop }

/-- Byte-granular drop, for slicing source text at byte offsets. -/
def dropBytes : List Char → Nat → List Char
  | cs, 0 => cs
  | [], _ + 1 => []
  | c :: cs, n + 1 => dropBytes cs (n + 1 - utf8Size c)

/-- Byte-granular take, for slicing source text at byte offsets. -/
def takeBytes : List Char → Nat → List Char
  | _, 0 => []
  | [], _ + 1 => []
  | c :: cs, n + 1 => c :: takeBytes cs (n + 1 - utf8Size c)

/-- The Rust byte-range slice source_text[start..stop] at char granularity. -/
def byteSlice (text : List Char) (start stop : Nat) : List Char :=
  takeBytes (dropBytes text start) (stop - start)

/- ===================== view renderers ===================== -/

/-- One output line of the scope-tree writer: indent spaces, the line, a
newline (ScopesTextWriter.write_line). -/
def writeLine (indent : Nat) (line : String) : String :=
  String.mk (List.replicate indent (Char.ofNat 32)) ++ line ++ "\n"

/-- The bindings block emitted on entering a scope with bindings
(ScopesTextWriter.enter_scope, after indent_in). -/
def bindingsText (scoping : Scoping) (indent : Nat) (scopeId : Nat) : String :=
  let bs := scoping.getBindings scopeId
  if bs.isEmpty then ""
  else
    writeLine indent "Bindings: \x7b"
      ++ String.join (bs.map fun b =>
          writeLine indent
            ("  " ++ b.1 ++ " (SymbolId(" ++ toString b.2 ++ ") "
              ++ scoping.symbolFlagsDebug b.2 ++ ")"))
      ++ writeLine indent "\x7d"

mutual

/-- Text of one scope: header line at the current indent, bindings block and
children two columns deeper, closing brace back at the current indent
(ScopesTextWriter enter_scope / leave_scope). -/
def renderScope (scoping : Scoping) (indent : Nat) : ScopeTree → String
  | .node scopeId children =>
    writeLine indent
        ("Scope " ++ toString scopeId ++ " ("
          ++ scoping.scopeFlagsDebug scopeId ++ ") \x7b")
      ++ bindingsText scoping (indent + 2) scopeId
      ++ renderScopes scoping (indent + 2) children
      ++ writeLine indent "\x7d"

/-- Text of a list of sibling scopes, in visitation order. -/
def renderScopes (scoping : Scoping) (indent : Nat) : List ScopeTree → String
  | [] => ""
  | t :: ts => renderScope scoping indent t ++ renderScopes scoping indent ts

end

/-- get_scope_text: run the scope writer over the program, indent zero. -/
def getScopeText (program : ProgramData) (scoping : Scoping) : String :=
  renderScopes scoping 0 program.scopes

/-- The symbol-table projection rows, in symbol creation order
(get_symbols_text's data vector). -/
def getSymbolsData (scoping : Scoping) : List SymbolData :=
  scoping.symbolIds.map fun symbolId =>
    { span := scoping.symbolSpanOf symbolId
      name := scoping.symbolNameOf symbolId
      flags := scoping.symbolFlagsOf symbolId
      scopeId := scoping.symbolScopeIdOf symbolId
      resolvedReferences := scoping.resolvedReferenceIdsOf symbolId
      references := (scoping.resolvedReferenceIdsOf symbolId).map scoping.getReference }

/-- get_symbols_text: serialize the projection rows; the only fallible step
of the whole run (serde_json to_string_pretty, mapped to a napi error whose
message is the serializer's error string). -/
def getSymbolsText (env : Env) (scoping : Scoping) : Except String String :=
  env.serdeToStringPretty (getSymbolsData scoping)

/-- The per-diagnostic flattening of get_diagnostics: one flat record per
label when a label list is present, one record at offsets 0,0 when absent. -/
def flattenDiag (error : OxcDiag) : List FlatDiagnostic :=
  match error.labels with
  | some labels =>
    labels.map fun label =>
      { start := label.offset
        stop := label.offset + label.len
        severity := error.severity
        message := error.message }
  | none =>
    [{ start := 0, stop := 0, severity := error.severity, message := error.message }]

/-- get_diagnostics: flat_map of the flattening over the sink, preserving
arrival order. -/
def getDiagnostics (self : Oxc) : List FlatDiagnostic :=
  self.diagnostics.flatMap flattenDiag

/-- map_comments: for each raw comment take the verbatim content-span text,
translate the full span through the converter, and keep source order. -/
def mapComments (text : List Char) (comments : List RawComment) : List Comment :=
  comments.map fun comment =>
    let value := String.mk (byteSlice text comment.contentSpan.start comment.contentSpan.stop)
    let sp := convertSpan text comment.span
    { ctype := match comment.kind with
        | CommentKind.line => CommentType.line
        | CommentKind.block => CommentType.block
      value := value
      start := sp.start
      stop := sp.stop }

/-- The span conversion pass over the whole tree (convert_program). -/
def convertProgram (program : ProgramData) : ProgramData :=
  { program with spans := program.spans.map (convertSpan program.sourceText) }

/-- convert_ast: convert the tree's spans, serialize the converted tree, and
extract translated comments into the result bundle. -/
def convertAst (env : Env) (self : Oxc) (program : ProgramData) : Oxc :=
  let program := convertProgram program
  let self := { self with astJson := env.astJsonOf program }
  { self with comments := mapComments program.sourceText program.comments }

/- ===================== pipeline driver ===================== -/

/-- save_diagnostics: extend the sink, preserving arrival order. -/
def saveDiagnostics (self : Oxc) (ds : List OxcDiag) : Oxc :=
  { self with diagnostics := self.diagnostics ++ ds }

/-- run_linter: only lint when linting is requested and the sink is empty; a
fresh semantic pass feeds the linter, whose diagnostics join the sink. -/
def runLinter (env : Env) (runOptions : OxcRunOptions) (self : Oxc) :
    Oxc × List Stage :=
  if runOptions.lint.getD false && self.diagnostics.isEmpty then
    (saveDiagnostics self env.lintDiags, [Stage.lintStage])
  else
    (self, [])

/-- run_prettier: on request, format the freshly re-parsed source and, on
request, round-trip the prettier document form. -/
def runPrettier (env : Env) (runOptions : OxcRunOptions) (self : Oxc) : Oxc :=
  if runOptions.prettierFormat.getD false || runOptions.prettierIr.getD false then
    let self :=
      if runOptions.prettierFormat.getD false then
        { self with prettierFormattedText := env.prettierFormatted }
      else self
    if runOptions.prettierIr.getD false then
      { self with prettierIrText := env.prettierIrText }
    else self
  else self

/-- Source-type resolution at the top of run: infer from the (defaulted)
filename, then apply the script / module override. -/
def resolvedSourceType (env : Env) (parserOptions : OxcParserOptions) : SourceType :=
  let path := parserOptions.sourceFilename.getD "test.tsx"
  let st := (env.sourceTypeFromPath path).getD SourceType.default
  match parserOptions.sourceType with
  | some "script" => st.withScript true
  | some "module" => st.withModule true
  | _ => st

/-- The ParseOptions run hands the parser: regular-expression parsing forced
on, the three configurable options defaulted from ParseOptions default. -/
def mkParseOptions (parserOptions : OxcParserOptions) : ParseOptions :=
  let d : ParseOptions := {}
  { parseRegularExpression := true
    allowReturnOutsideFunction :=
      parserOptions.allowReturnOutsideFunction.getD d.allowReturnOutsideFunction
    preserveParens := parserOptions.preserveParens.getD d.preserveParens
    allowV8Intrinsics := parserOptions.allowV8Intrinsics.getD d.allowV8Intrinsics }

/-- The handle standing for TransformOptions default. -/
def defaultTransformTarget : Nat := 0

/-- The isolated-declarations branch of the transform stage: generate the
declaration tree; on success code-generate it (honoring the sourcemap
request); on failure record the diagnostics and clear the codegen output. -/
def isolatedDeclarationsPhase (env : Env) (codegenOptions : OxcCodegenOptions)
    (path : String) (program : ProgramData) (self : Oxc) : Oxc × List Stage :=
  let ret := env.isolatedDeclarations program
  if ret.2.isEmpty then
    let cg := env.codegen none
      { minify := false
        sourceMapPath :=
          if codegenOptions.enableSourcemap.getD false then some path else none }
      ret.1
    ({ self with codegenText := cg.1, codegenSourcemapText := cg.2 },
      [Stage.isolatedDecl, Stage.idCodegen])
  else
    let self := saveDiagnostics self ret.2
    ({ self with codegenText := "", codegenSourcemapText := none },
      [Stage.isolatedDecl])

/-- The named-target transform branch: resolve the target (recording a
diagnostic and falling back to the default on failure), run the transformer
in place, record its errors when any. -/
def runTransformer (env : Env) (transformOptions : OxcTransformerOptions)
    (program : ProgramData) (self : Oxc) : ProgramData × Oxc :=
  let resolved :=
    match transformOptions.target with
    | some t =>
      match env.fromTarget t with
      | Except.ok o => (o, self)
      | Except.error e => (defaultTransformTarget, saveDiagnostics self [OxcDiag.error e])
    | none => (defaultTransformTarget, self)
  let r := env.transformRun resolved.1 program
  let self := if r.2.isEmpty then resolved.2 else saveDiagnostics resolved.2 r.2
  (r.1, self)

/-- The minify stage: when compression or mangling is requested, build the
minifier options exactly as lib.rs does and run the minifier, which may
yield a replacement symbol table for code generation. -/
def runMinifier (env : Env) (minifierOptions : OxcMinifierOptions)
    (program : ProgramData) : ProgramData × Option Nat × List Stage :=
  if minifierOptions.compress.getD false || minifierOptions.mangle.getD false then
    let co := minifierOptions.compressOptions.getD {}
    let opts : MinifierOptions :=
      { mangle := minifierOptions.mangle.getD false
        compress := some
          (if minifierOptions.compress.getD false then
            { dropConsole := co.dropConsole, dropDebugger := co.dropDebugger }
          else CompressOptions.allFalse) }
    let r := env.minify opts program
    (r.1, r.2, [Stage.minifyStage])
  else
    (program, none, [])

/-- The tail of the standard path: minify (when requested), final code
generation (honoring whitespace minification and the sourcemap request), the
raw body dump, and AST / comment rendering. -/
def finishRun (env : Env) (minifierOptions : OxcMinifierOptions)
    (codegenOptions : OxcCodegenOptions) (path : String)
    (program : ProgramData) (self : Oxc) : Oxc × List Stage :=
  let m := runMinifier env minifierOptions program
  let program := m.1
  let cg := env.codegen m.2.1
    { minify := minifierOptions.whitespace.getD false
      sourceMapPath :=
        if codegenOptions.enableSourcemap.getD false then some path else none }
    program
  let self := { self with codegenText := cg.1, codegenSourcemapText := cg.2 }
  let self := { self with ir := env.irDump program }
  let self := convertAst env self program
  (self, m.2.2 ++ [Stage.codegenStage, Stage.astConvert])

/-- The control-flow-graph text stored into the bundle: default when the
semantic analyzer produced no CFG, its dot rendering (at the configured
verbosity) otherwise. -/
def cfgText (env : Env) (verbose : Bool) : String :=
  match env.semanticCfg with
  | none => ""
  | some _ => env.cfgDebugDot verbose

/-- The syntax-diagnostics step: parser errors chained with the semantic
errors join the sink only when syntax diagnostics are requested. -/
def syntaxDiagStep (env : Env) (runOptions : OxcRunOptions) (pr : ParserReturn)
    (self : Oxc) : Oxc :=
  if runOptions.synDiags.getD false then
    saveDiagnostics self (pr.errors ++ env.semanticErrors)
  else self

/-- The scope-view step: render the scope tree only when requested and the
source type is not a TypeScript declaration file. -/
def scopeStep (env : Env) (runOptions : OxcRunOptions) (sourceType : SourceType)
    (program : ProgramData) (self : Oxc) : Oxc × List Stage :=
  if !sourceType.isTypescriptDefinition && runOptions.scope.getD false then
    ({ self with scopeText := getScopeText program env.scoping }, [Stage.scopeRender])
  else (self, [])

/-- The symbol-view step: serialize the symbol table only when requested and
the source type is not a TypeScript declaration file; a serialization error
becomes the fatal run error. -/
def symbolStep (env : Env) (runOptions : OxcRunOptions) (sourceType : SourceType)
    (self : Oxc) : Oxc × Option String × List Stage :=
  if !sourceType.isTypescriptDefinition && runOptions.symbol.getD false then
    match getSymbolsText env env.scoping with
    | Except.ok s => ({ self with symbolsJson := s }, none, [Stage.symbolRender])
    | Except.error e => (self, some e, [Stage.symbolRender])
  else (self, none, [])

/-- The tail of run after the views: the transform stage (with its
isolated-declarations early exit) followed, off the early exit, by minify,
code generation and AST conversion. -/
def tailPhase (env : Env) (runOptions : OxcRunOptions)
    (transformOptions : OxcTransformerOptions) (minifierOptions : OxcMinifierOptions)
    (codegenOptions : OxcCodegenOptions) (path : String)
    (program : ProgramData) (self : Oxc) : Oxc × List Stage :=
  if runOptions.transform.getD false then
    if transformOptions.isolatedDeclarations = some true then
      isolatedDeclarationsPhase env codegenOptions path program self
    else
      let t := runTransformer env transformOptions program self
      let r := finishRun env minifierOptions codegenOptions path t.1 t.2
      (r.1, [Stage.transformStage] ++ r.2)
  else
    finishRun env minifierOptions codegenOptions path program self

/-- Oxc.run: the pipeline driver, translated stage by stage from lib.rs. -/
def run (env : Env) (sourceText : String) (options : OxcOptions) (self : Oxc) :
    RunOut :=
  let self := { self with diagnostics := ([] : List OxcDiag) }
  let runOptions := options.run.getD {}
  let parserOptions := options.parser.getD {}
  let minifierOptions := options.minifier.getD {}
  let codegenOptions := options.codegen.getD {}
  let transformOptions := options.transformer.getD {}
  let controlFlowOptions := options.controlFlow.getD {}
  let path := parserOptions.sourceFilename.getD "test.tsx"
  let sourceType := resolvedSourceType env parserOptions
  let pr := env.parse sourceText (mkParseOptions parserOptions) sourceType
  let program := pr.program
  let self :=
    { self with
      controlFlowGraph := cfgText env (controlFlowOptions.verbose.getD false) }
  let self := syntaxDiagStep env runOptions pr self
  let lintStep := runLinter env runOptions self
  let self := runPrettier env runOptions lintStep.1
  let sc := scopeStep env runOptions sourceType program self
  let sy := symbolStep env runOptions sourceType sc.1
  let trPre := lintStep.2 ++ sc.2 ++ sy.2.2
  match sy.2.1 with
  | some e => { res := Except.error e, st := sy.1, trace := trPre }
  | none =>
    let r := tailPhase env runOptions transformOptions minifierOptions
      codegenOptions path program sy.1
    { res := Except.ok (), st := r.1, trace := trPre ++ r.2 }

/-- The sink contents at the moment of the lint gate: the parser and
semantic errors when syntax diagnostics are requested, nothing otherwise. -/
def preLintDiagnostics (env : Env) (sourceText : String) (options : OxcOptions) :
    List OxcDiag :=
  if (options.run.getD {}).synDiags.getD false then
    (env.parse sourceText (mkParseOptions (options.parser.getD {}))
        (resolvedSourceType env (options.parser.getD {}))).errors
      ++ env.semanticErrors
  else []

/-- Replace only the minifyWhitespace option of a configuration. -/
def setMinifyWhitespace (options : OxcOptions) (w : Option Bool) : OxcOptions :=
  { options with minifier := some { options.minifier.getD {} with whitespace := w } }

/- ===== derived outcome expressions (closed forms used by the lemmas) ===== -/

/-- The fatal-error outcome of the symbol-view step, as a function of the
environment and the gating inputs alone. -/
def symbolErrOutcome (env : Env) (runOptions : OxcRunOptions)
    (sourceType : SourceType) : Option String :=
  if !sourceType.isTypescriptDefinition && runOptions.symbol.getD false then
    match getSymbolsText env env.scoping with
    | Except.ok _ => none
    | Except.error e => some e
  else none

/-- The transform-options handle the transformer ends up running with. -/
def resolvedTargetHandle (env : Env) (transformOptions : OxcTransformerOptions) : Nat :=
  match transformOptions.target with
  | some t =>
    match env.fromTarget t with
    | Except.ok o => o
    | Except.error _ => defaultTransformTarget
  | none => defaultTransformTarget

/-- The diagnostics contributed by target resolution alone. -/
def targetDiagSuffix (env : Env) (transformOptions : OxcTransformerOptions) :
    List OxcDiag :=
  match transformOptions.target with
  | some t =>
    match env.fromTarget t with
    | Except.ok _ => []
    | Except.error e => [OxcDiag.error e]
  | none => []

/-- The diagnostics contributed by the whole tail phase. -/
def tailDiagSuffix (env : Env) (runOptions : OxcRunOptions)
    (transformOptions : OxcTransformerOptions) (program : ProgramData) :
    List OxcDiag :=
  if runOptions.transform.getD false then
    if transformOptions.isolatedDeclarations = some true then
      (env.isolatedDeclarations program).2
    else
      targetDiagSuffix env transformOptions
        ++ (env.transformRun (resolvedTargetHandle env transformOptions) program).2
  else []

/-- The stage trace contributed by the tail phase. -/
def tailTrace (env : Env) (runOptions : OxcRunOptions)
    (transformOptions : OxcTransformerOptions) (minifierOptions : OxcMinifierOptions)
    (program : ProgramData) : List Stage :=
  if runOptions.transform.getD false then
    if transformOptions.isolatedDeclarations = some true then
      if (env.isolatedDeclarations program).2.isEmpty then
        [Stage.isolatedDecl, Stage.idCodegen]
      else [Stage.isolatedDecl]
    else
      [Stage.transformStage]
        ++ (if minifierOptions.compress.getD false || minifierOptions.mangle.getD false then
              [Stage.minifyStage]
            else [])
        ++ [Stage.codegenStage, Stage.astConvert]
  else
    (if minifierOptions.compress.getD false || minifierOptions.mangle.getD false then
      [Stage.minifyStage]
    else [])
      ++ [Stage.codegenStage, Stage.astConvert]

/- ===================== concrete sample data ===================== -/

/-- A small concrete scoping table for concrete evaluations. -/
def sampleScoping : Scoping :=
  { symbolIds := [0]
    symbolSpanOf := fun _ => { start := 0, stop := 1 }
    symbolNameOf := fun _ => "x"
    symbolFlagsOf := fun _ => 0
    symbolScopeIdOf := fun _ => 0
    resolvedReferenceIdsOf := fun _ => []
    getReference := fun _ => { nodeId := 0, symbolId := none, flags := 0 }
    scopeFlagsDebug := fun _ => "Top"
    symbolFlagsDebug := fun _ => "BlockScopedVariable"
    getBindings := fun _ => [] }

/-- A small concrete parsed program for concrete evaluations. -/
def sampleProgram : ProgramData :=
  { bodyId := 0
    spans := [{ start := 0, stop := 1 }]
    comments := []
    scopes := [ScopeTree.node 0 []]
    sourceText := ['l', 'e', 't'] }

/-- A fully concrete environment for concrete evaluations: every external
stage returns a fixed small value. -/
def envBase : Env :=
  { sourceTypeFromPath := fun _ => some { module := true, tsDefinition := false }
    parse := fun _ _ _ => { program := sampleProgram, errors := [], moduleRecord := 0 }
    semanticErrors := []
    semanticCfg := some ()
    cfgDebugDot := fun v => if v then "digraph verbose" else "digraph"
    scoping := sampleScoping
    moduleRecord := 0
    lintDiags := []
    prettierFormatted := "formatted"
    prettierIrText := "ir-doc"
    serdeToStringPretty := fun _ => Except.ok "[]"
    isolatedDeclarations := fun p => (p, [])
    fromTarget := fun _ => Except.ok 1
    transformRun := fun _ p => (p, [])
    minify := fun _ p => (p, none)
    codegen := fun _ o _ => (if o.minify then "min" else "code", none)
    irDump := fun _ => "body"
    astJsonOf := fun _ => "ast" }

/-- Configuration requesting only the scope view. -/
def optsScopeOn : OxcOptions :=
  { run := some { scope := some true } }

/-- Configuration with the scope view explicitly disabled. -/
def optsScopeOff : OxcOptions :=
  { run := some { scope := some false } }

/-- Configuration requesting the isolated-declarations transform. -/
def optsId : OxcOptions :=
  { run := some { transform := some true }
    transformer := some { isolatedDeclarations := some true } }

/-- Configuration requesting syntax diagnostics only. -/
def optsSyn : OxcOptions :=
  { run := some { synDiags := some true } }

/-- Environment whose parser and semantic analyzer report one error each. -/
def envSyn : Env :=
  { envBase with
    parse := fun _ _ _ =>
      { program := sampleProgram, errors := [OxcDiag.error "syn"], moduleRecord := 0 }
    semanticErrors := [OxcDiag.error "sem"] }

/-- Environment with a syntactically invalid input (one parse error) and a
linter that reports one diagnostic. -/
def envLint : Env :=
  { envBase with
    parse := fun _ _ _ =>
      { program := sampleProgram, errors := [OxcDiag.error "Unexpected token"],
        moduleRecord := 0 }
    lintDiags := [OxcDiag.error "no-debugger"] }

/-- Configuration with linting on and syntax diagnostics off. -/
def optsLintNoSyn : OxcOptions :=
  { run := some { synDiags := some false, lint := some true } }

/-- Environment whose inferred source type is a TypeScript declaration file. -/
def envTs : Env :=
  { envBase with
    sourceTypeFromPath := fun _ => some { module := true, tsDefinition := true } }

/-- Configuration requesting both the scope and symbol views. -/
def optsViews : OxcOptions :=
  { run := some { scope := some true, symbol := some true } }

/-- Environment whose symbol-table serializer fails. -/
def envSerdeFail : Env :=
  { envBase with serdeToStringPretty := fun _ => Except.error "boom" }

/-- A diagnostic carrying a present-but-empty label list. -/
def diagEmptyLabelList : OxcDiag :=
  { severity := "Error", message := "boom", labels := some [] }

/- ===================== stage-level lemmas ===================== -/

theorem saveDiagnostics_diagnostics (s : Oxc) (d : List OxcDiag) :
    (saveDiagnostics s d).diagnostics = s.diagnostics ++ d := rfl

@[simp] theorem saveDiagnostics_scopeText (s : Oxc) (d : List OxcDiag) :
    (saveDiagnostics s d).scopeText = s.scopeText := rfl

@[simp] theorem saveDiagnostics_symbolsJson (s : Oxc) (d : List OxcDiag) :
    (saveDiagnostics s d).symbolsJson = s.symbolsJson := rfl

@[simp] theorem saveDiagnostics_controlFlowGraph (s : Oxc) (d : List OxcDiag) :
    (saveDiagnostics s d).controlFlowGraph = s.controlFlowGraph := rfl

@[simp] theorem runLinter_scopeText (env : Env) (ro : OxcRunOptions) (s : Oxc) :
    (runLinter env ro s).1.scopeText = s.scopeText := by
  unfold runLinter; split <;> rfl

@[simp] theorem runLinter_symbolsJson (env : Env) (ro : OxcRunOptions) (s : Oxc) :
    (runLinter env ro s).1.symbolsJson = s.symbolsJson := by
  unfold runLinter; split <;> rfl

@[simp] theorem runLinter_controlFlowGraph (env : Env) (ro : OxcRunOptions) (s : Oxc) :
    (runLinter env ro s).1.controlFlowGraph = s.controlFlowGraph := by
  unfold runLinter; split <;> rfl

theorem runLinter_diagnostics_append (env : Env) (ro : OxcRunOptions) (s : Oxc) :
    ∃ d, (runLinter env ro s).1.diagnostics = s.diagnostics ++ d := by
  unfold runLinter; split
  · exact ⟨env.lintDiags, rfl⟩
  · exact ⟨[], (List.append_nil _).symm⟩

@[simp] theorem runPrettier_scopeText (env : Env) (ro : OxcRunOptions) (s : Oxc) :
    (runPrettier env ro s).scopeText = s.scopeText := by
  unfold runPrettier; split <;> (try split) <;> (try split) <;> rfl

@[simp] theorem runPrettier_symbolsJson (env : Env) (ro : OxcRunOptions) (s : Oxc) :
    (runPrettier env ro s).symbolsJson = s.symbolsJson := by
  unfold runPrettier; split <;> (try split) <;> (try split) <;> rfl

@[simp] theorem runPrettier_controlFlowGraph (env : Env) (ro : OxcRunOptions) (s : Oxc) :
    (runPrettier env ro s).controlFlowGraph = s.controlFlowGraph := by
  unfold runPrettier; split <;> (try split) <;> (try split) <;> rfl

@[simp] theorem runPrettier_diagnostics (env : Env) (ro : OxcRunOptions) (s : Oxc) :
    (runPrettier env ro s).diagnostics = s.diagnostics := by
  unfold runPrettier; split <;> (try split) <;> (try split) <;> rfl

@[simp] theorem convertAst_scopeText (env : Env) (s : Oxc) (p : ProgramData) :
    (convertAst env s p).scopeText = s.scopeText := rfl

@[simp] theorem convertAst_symbolsJson (env : Env) (s : Oxc) (p : ProgramData) :
    (convertAst env s p).symbolsJson = s.symbolsJson := rfl

@[simp] theorem convertAst_controlFlowGraph (env : Env) (s : Oxc) (p : ProgramData) :
    (convertAst env s p).controlFlowGraph = s.controlFlowGraph := rfl

@[simp] theorem convertAst_diagnostics (env : Env) (s : Oxc) (p : ProgramData) :
    (convertAst env s p).diagnostics = s.diagnostics := rfl

@[simp] theorem finishRun_scopeText (env : Env) (mo : OxcMinifierOptions)
    (co : OxcCodegenOptions) (path : String) (p : ProgramData) (s : Oxc) :
    (finishRun env mo co path p s).1.scopeText = s.scopeText := by
  unfold finishRun; simp

@[simp] theorem finishRun_symbolsJson (env : Env) (mo : OxcMinifierOptions)
    (co : OxcCodegenOptions) (path : String) (p : ProgramData) (s : Oxc) :
    (finishRun env mo co path p s).1.symbolsJson = s.symbolsJson := by
  unfold finishRun; simp

@[simp] theorem finishRun_controlFlowGraph (env : Env) (mo : OxcMinifierOptions)
    (co : OxcCodegenOptions) (path : String) (p : ProgramData) (s : Oxc) :
    (finishRun env mo co path p s).1.controlFlowGraph = s.controlFlowGraph := by
  unfold finishRun; simp

@[simp] theorem finishRun_diagnostics (env : Env) (mo : OxcMinifierOptions)
    (co : OxcCodegenOptions) (path : String) (p : ProgramData) (s : Oxc) :
    (finishRun env mo co path p s).1.diagnostics = s.diagnostics := by
  unfold finishRun; simp

@[simp] theorem runTransformer_scopeText (env : Env) (tr : OxcTransformerOptions)
    (p : ProgramData) (s : Oxc) :
    (runTransformer env tr p s).2.scopeText = s.scopeText := by
  unfold runTransformer
  rcases tr.target with _ | t <;> simp only []
  · split <;> rfl
  · rcases env.fromTarget t with o | e <;> simp only [] <;> split <;> rfl

@[simp] theorem runTransformer_symbolsJson (env : Env) (tr : OxcTransformerOptions)
    (p : ProgramData) (s : Oxc) :
    (runTransformer env tr p s).2.symbolsJson = s.symbolsJson := by
  unfold runTransformer
  rcases tr.target with _ | t <;> simp only []
  · split <;> rfl
  · rcases env.fromTarget t with o | e <;> simp only [] <;> split <;> rfl

@[simp] theorem runTransformer_controlFlowGraph (env : Env) (tr : OxcTransformerOptions)
    (p : ProgramData) (s : Oxc) :
    (runTransformer env tr p s).2.controlFlowGraph = s.controlFlowGraph := by
  unfold runTransformer
  rcases tr.target with _ | t <;> simp only []
  · split <;> rfl
  · rcases env.fromTarget t with o | e <;> simp only [] <;> split <;> rfl

theorem runTransformer_diagnostics_append (env : Env) (tr : OxcTransformerOptions)
    (p : ProgramData) (s : Oxc) :
    ∃ d, (runTransformer env tr p s).2.diagnostics = s.diagnostics ++ d := by
  unfold runTransformer
  rcases tr.target with _ | t
  · simp only []
    split
    · exact ⟨[], (List.append_nil _).symm⟩
    · exact ⟨_, rfl⟩
  · simp only []
    rcases env.fromTarget t with e | o
    · simp only []
      split
      · exact ⟨[OxcDiag.error e], by simp [saveDiagnostics]⟩
      · exact ⟨OxcDiag.error e :: (env.transformRun defaultTransformTarget p).2,
          by simp [saveDiagnostics]⟩
    · simp only []
      split
      · exact ⟨[], (List.append_nil _).symm⟩
      · exact ⟨_, rfl⟩

@[simp] theorem isolatedDeclarationsPhase_scopeText (env : Env)
    (co : OxcCodegenOptions) (path : String) (p : ProgramData) (s : Oxc) :
    (isolatedDeclarationsPhase env co path p s).1.scopeText = s.scopeText := by
  simp only [isolatedDeclarationsPhase]; split <;> rfl

@[simp] theorem isolatedDeclarationsPhase_symbolsJson (env : Env)
    (co : OxcCodegenOptions) (path : String) (p : ProgramData) (s : Oxc) :
    (isolatedDeclarationsPhase env co path p s).1.symbolsJson = s.symbolsJson := by
  simp only [isolatedDeclarationsPhase]; split <;> rfl

@[simp] theorem isolatedDeclarationsPhase_controlFlowGraph (env : Env)
    (co : OxcCodegenOptions) (path : String) (p : ProgramData) (s : Oxc) :
    (isolatedDeclarationsPhase env co path p s).1.controlFlowGraph = s.controlFlowGraph := by
  simp only [isolatedDeclarationsPhase]; split <;> rfl

theorem isolatedDeclarationsPhase_diagnostics_append (env : Env)
    (co : OxcCodegenOptions) (path : String) (p : ProgramData) (s : Oxc) :
    ∃ d, (isolatedDeclarationsPhase env co path p s).1.diagnostics = s.diagnostics ++ d := by
  simp only [isolatedDeclarationsPhase]
  split
  · exact ⟨[], (List.append_nil _).symm⟩
  · exact ⟨_, rfl⟩

@[simp] theorem syntaxDiagStep_scopeText (env : Env) (ro : OxcRunOptions)
    (pr : ParserReturn) (s : Oxc) :
    (syntaxDiagStep env ro pr s).scopeText = s.scopeText := by
  unfold syntaxDiagStep; split <;> rfl

@[simp] theorem syntaxDiagStep_symbolsJson (env : Env) (ro : OxcRunOptions)
    (pr : ParserReturn) (s : Oxc) :
    (syntaxDiagStep env ro pr s).symbolsJson = s.symbolsJson := by
  unfold syntaxDiagStep; split <;> rfl

@[simp] theorem syntaxDiagStep_controlFlowGraph (env : Env) (ro : OxcRunOptions)
    (pr : ParserReturn) (s : Oxc) :
    (syntaxDiagStep env ro pr s).controlFlowGraph = s.controlFlowGraph := by
  unfold syntaxDiagStep; split <;> rfl

theorem syntaxDiagStep_diagnostics_eq (env : Env) (ro : OxcRunOptions)
    (pr : ParserReturn) (s : Oxc) :
    (syntaxDiagStep env ro pr s).diagnostics =
      s.diagnostics
        ++ (if ro.synDiags.getD false then pr.errors ++ env.semanticErrors else []) := by
  unfold syntaxDiagStep; split <;> simp [saveDiagnostics]

theorem runLinter_diagnostics_eq (env : Env) (ro : OxcRunOptions) (s : Oxc) :
    (runLinter env ro s).1.diagnostics =
      s.diagnostics
        ++ (if ro.lint.getD false && s.diagnostics.isEmpty then env.lintDiags else []) := by
  unfold runLinter; split <;> rename_i h <;> simp [saveDiagnostics, h]

theorem runLinter_trace_eq (env : Env) (ro : OxcRunOptions) (s : Oxc) :
    (runLinter env ro s).2 =
      (if ro.lint.getD false && s.diagnostics.isEmpty then [Stage.lintStage] else []) := by
  unfold runLinter; split <;> rename_i h <;> simp [h]

@[simp] theorem scopeStep_symbolsJson (env : Env) (ro : OxcRunOptions)
    (st : SourceType) (p : ProgramData) (s : Oxc) :
    (scopeStep env ro st p s).1.symbolsJson = s.symbolsJson := by
  unfold scopeStep; split <;> rfl

@[simp] theorem scopeStep_controlFlowGraph (env : Env) (ro : OxcRunOptions)
    (st : SourceType) (p : ProgramData) (s : Oxc) :
    (scopeStep env ro st p s).1.controlFlowGraph = s.controlFlowGraph := by
  unfold scopeStep; split <;> rfl

@[simp] theorem scopeStep_diagnostics (env : Env) (ro : OxcRunOptions)
    (st : SourceType) (p : ProgramData) (s : Oxc) :
    (scopeStep env ro st p s).1.diagnostics = s.diagnostics := by
  unfold scopeStep; split <;> rfl

theorem scopeStep_scopeText_eq (env : Env) (ro : OxcRunOptions)
    (st : SourceType) (p : ProgramData) (s : Oxc) :
    (scopeStep env ro st p s).1.scopeText =
      if !st.isTypescriptDefinition && ro.scope.getD false then
        getScopeText p env.scoping
      else s.scopeText := by
  unfold scopeStep; split <;> rename_i h <;> simp [h]

theorem scopeStep_trace_eq (env : Env) (ro : OxcRunOptions)
    (st : SourceType) (p : ProgramData) (s : Oxc) :
    (scopeStep env ro st p s).2 =
      if !st.isTypescriptDefinition && ro.scope.getD false then
        [Stage.scopeRender]
      else [] := by
  unfold scopeStep; split <;> rename_i h <;> simp [h]

@[simp] theorem symbolStep_scopeText (env : Env) (ro : OxcRunOptions)
    (st : SourceType) (s : Oxc) :
    (symbolStep env ro st s).1.scopeText = s.scopeText := by
  unfold symbolStep; split
  · split <;> rfl
  · rfl

@[simp] theorem symbolStep_controlFlowGraph (env : Env) (ro : OxcRunOptions)
    (st : SourceType) (s : Oxc) :
    (symbolStep env ro st s).1.controlFlowGraph = s.controlFlowGraph := by
  unfold symbolStep; split
  · split <;> rfl
  · rfl

@[simp] theorem symbolStep_diagnostics (env : Env) (ro : OxcRunOptions)
    (st : SourceType) (s : Oxc) :
    (symbolStep env ro st s).1.diagnostics = s.diagnostics := by
  unfold symbolStep; split
  · split <;> rfl
  · rfl

theorem symbolStep_symbolsJson_eq (env : Env) (ro : OxcRunOptions)
    (st : SourceType) (s : Oxc) :
    (symbolStep env ro st s).1.symbolsJson =
      if !st.isTypescriptDefinition && ro.symbol.getD false then
        match getSymbolsText env env.scoping with
        | Except.ok j => j
        | Except.error _ => s.symbolsJson
      else s.symbolsJson := by
  unfold symbolStep; split <;> rename_i h
  · split <;> rename_i heq <;> simp [h, heq]
  · simp [h]

theorem symbolStep_err_eq (env : Env) (ro : OxcRunOptions)
    (st : SourceType) (s : Oxc) :
    (symbolStep env ro st s).2.1 = symbolErrOutcome env ro st := by
  unfold symbolStep symbolErrOutcome; split
  · split <;> rfl
  · rfl

theorem symbolStep_trace_eq (env : Env) (ro : OxcRunOptions)
    (st : SourceType) (s : Oxc) :
    (symbolStep env ro st s).2.2 =
      if !st.isTypescriptDefinition && ro.symbol.getD false then
        [Stage.symbolRender]
      else [] := by
  unfold symbolStep; split <;> rename_i h
  · split <;> simp [h]
  · simp [h]

theorem runMinifier_trace_eq (env : Env) (mo : OxcMinifierOptions) (p : ProgramData) :
    (runMinifier env mo p).2.2 =
      if mo.compress.getD false || mo.mangle.getD false then [Stage.minifyStage]
      else [] := by
  unfold runMinifier; split <;> rename_i h <;> simp [h]

theorem finishRun_trace_eq (env : Env) (mo : OxcMinifierOptions)
    (co : OxcCodegenOptions) (path : String) (p : ProgramData) (s : Oxc) :
    (finishRun env mo co path p s).2 =
      (if mo.compress.getD false || mo.mangle.getD false then [Stage.minifyStage] else [])
        ++ [Stage.codegenStage, Stage.astConvert] := by
  unfold finishRun
  simp [runMinifier_trace_eq]

theorem isolatedDeclarationsPhase_diagnostics_eq (env : Env)
    (co : OxcCodegenOptions) (path : String) (p : ProgramData) (s : Oxc) :
    (isolatedDeclarationsPhase env co path p s).1.diagnostics =
      s.diagnostics ++ (env.isolatedDeclarations p).2 := by
  simp only [isolatedDeclarationsPhase]
  split <;> rename_i h
  · simp_all [List.isEmpty_iff]
  · simp [saveDiagnostics]

theorem isolatedDeclarationsPhase_trace_eq (env : Env)
    (co : OxcCodegenOptions) (path : String) (p : ProgramData) (s : Oxc) :
    (isolatedDeclarationsPhase env co path p s).2 =
      if (env.isolatedDeclarations p).2.isEmpty then
        [Stage.isolatedDecl, Stage.idCodegen]
      else [Stage.isolatedDecl] := by
  simp only [isolatedDeclarationsPhase]
  split <;> rename_i h <;> simp [h]

theorem runTransformer_diagnostics_eq (env : Env) (tr : OxcTransformerOptions)
    (p : ProgramData) (s : Oxc) :
    (runTransformer env tr p s).2.diagnostics =
      s.diagnostics ++ targetDiagSuffix env tr
        ++ (env.transformRun (resolvedTargetHandle env tr) p).2 := by
  unfold runTransformer targetDiagSuffix resolvedTargetHandle
  rcases tr.target with _ | t
  · simp only []
    split <;> rename_i h
    · simp_all [List.isEmpty_iff]
    · simp [saveDiagnostics]
  · simp only []
    rcases env.fromTarget t with e | o
    · simp only []
      split <;> rename_i h
      · simp_all [saveDiagnostics, List.isEmpty_iff]
      · simp [saveDiagnostics]
    · simp only []
      split <;> rename_i h
      · simp_all [List.isEmpty_iff]
      · simp [saveDiagnostics]

theorem runTransformer_program_eq (env : Env) (tr : OxcTransformerOptions)
    (p : ProgramData) (s : Oxc) :
    (runTransformer env tr p s).1 =
      (env.transformRun (resolvedTargetHandle env tr) p).1 := by
  unfold runTransformer resolvedTargetHandle
  rcases tr.target with _ | t
  · rfl
  · simp only []
    rcases env.fromTarget t with e | o <;> rfl

@[simp] theorem tailPhase_scopeText (env : Env) (ro : OxcRunOptions)
    (tr : OxcTransformerOptions) (mo : OxcMinifierOptions) (co : OxcCodegenOptions)
    (path : String) (p : ProgramData) (s : Oxc) :
    (tailPhase env ro tr mo co path p s).1.scopeText = s.scopeText := by
  unfold tailPhase
  split
  · split <;> simp
  · simp

@[simp] theorem tailPhase_symbolsJson (env : Env) (ro : OxcRunOptions)
    (tr : OxcTransformerOptions) (mo : OxcMinifierOptions) (co : OxcCodegenOptions)
    (path : String) (p : ProgramData) (s : Oxc) :
    (tailPhase env ro tr mo co path p s).1.symbolsJson = s.symbolsJson := by
  unfold tailPhase
  split
  · split <;> simp
  · simp

@[simp] theorem tailPhase_controlFlowGraph (env : Env) (ro : OxcRunOptions)
    (tr : OxcTransformerOptions) (mo : OxcMinifierOptions) (co : OxcCodegenOptions)
    (path : String) (p : ProgramData) (s : Oxc) :
    (tailPhase env ro tr mo co path p s).1.controlFlowGraph = s.controlFlowGraph := by
  unfold tailPhase
  split
  · split <;> simp
  · simp

theorem tailPhase_diagnostics_eq (env : Env) (ro : OxcRunOptions)
    (tr : OxcTransformerOptions) (mo : OxcMinifierOptions) (co : OxcCodegenOptions)
    (path : String) (p : ProgramData) (s : Oxc) :
    (tailPhase env ro tr mo co path p s).1.diagnostics =
      s.diagnostics ++ tailDiagSuffix env ro tr p := by
  unfold tailPhase tailDiagSuffix
  split <;> rename_i h1
  · split <;> rename_i h2
    · simp [isolatedDeclarationsPhase_diagnostics_eq]
    · simp [runTransformer_diagnostics_eq]
  · simp

theorem tailPhase_trace_eq (env : Env) (ro : OxcRunOptions)
    (tr : OxcTransformerOptions) (mo : OxcMinifierOptions) (co : OxcCodegenOptions)
    (path : String) (p : ProgramData) (s : Oxc) :
    (tailPhase env ro tr mo co path p s).2 = tailTrace env ro tr mo p := by
  unfold tailPhase tailTrace
  split <;> rename_i h1
  · split <;> rename_i h2
    · simp [isolatedDeclarationsPhase_trace_eq]
    · simp [finishRun_trace_eq]
  · simp [finishRun_trace_eq]

/- ================== run-level characterizations ================== -/

theorem run_res_eq (env : Env) (sourceText : String) (options : OxcOptions)
    (self : Oxc) :
    (run env sourceText options self).res =
      match symbolErrOutcome env (options.run.getD {})
          (resolvedSourceType env (options.parser.getD {})) with
      | some e => Except.error e
      | none => Except.ok () := by
  unfold run
  dsimp only
  split <;> rename_i heq <;> rw [symbolStep_err_eq] at heq <;> rw [heq]

theorem run_controlFlowGraph_eq (env : Env) (sourceText : String)
    (options : OxcOptions) (self : Oxc) :
    (run env sourceText options self).st.controlFlowGraph =
      cfgText env ((options.controlFlow.getD {}).verbose.getD false) := by
  unfold run
  dsimp only
  split <;> rename_i heq <;> simp

theorem run_scopeText_eq (env : Env) (sourceText : String)
    (options : OxcOptions) (self : Oxc) :
    (run env sourceText options self).st.scopeText =
      if !(resolvedSourceType env (options.parser.getD {})).isTypescriptDefinition
          && (options.run.getD {}).scope.getD false then
        getScopeText
          (env.parse sourceText (mkParseOptions (options.parser.getD {}))
            (resolvedSourceType env (options.parser.getD {}))).program
          env.scoping
      else self.scopeText := by
  unfold run
  dsimp only
  split <;> rename_i heq <;> simp [scopeStep_scopeText_eq]

theorem run_symbolsJson_eq (env : Env) (sourceText : String)
    (options : OxcOptions) (self : Oxc) :
    (run env sourceText options self).st.symbolsJson =
      if !(resolvedSourceType env (options.parser.getD {})).isTypescriptDefinition
          && (options.run.getD {}).symbol.getD false then
        match getSymbolsText env env.scoping with
        | Except.ok j => j
        | Except.error _ => self.symbolsJson
      else self.symbolsJson := by
  unfold run
  dsimp only
  split <;> rename_i heq <;> simp [symbolStep_symbolsJson_eq]

theorem run_diagnostics_eq (env : Env) (sourceText : String)
    (options : OxcOptions) (self : Oxc) :
    (run env sourceText options self).st.diagnostics =
      preLintDiagnostics env sourceText options
        ++ (if (options.run.getD {}).lint.getD false
              && (preLintDiagnostics env sourceText options).isEmpty then
            env.lintDiags
          else [])
        ++ (match symbolErrOutcome env (options.run.getD {})
              (resolvedSourceType env (options.parser.getD {})) with
            | some _ => []
            | none =>
              tailDiagSuffix env (options.run.getD {}) (options.transformer.getD {})
                (env.parse sourceText (mkParseOptions (options.parser.getD {}))
                  (resolvedSourceType env (options.parser.getD {}))).program) := by
  unfold run
  dsimp only
  split <;> rename_i heq <;> rw [symbolStep_err_eq] at heq <;> rw [heq] <;>
    simp [runLinter_diagnostics_eq, syntaxDiagStep_diagnostics_eq,
      tailPhase_diagnostics_eq, preLintDiagnostics]

theorem run_trace_eq (env : Env) (sourceText : String)
    (options : OxcOptions) (self : Oxc) :
    (run env sourceText options self).trace =
      (if (options.run.getD {}).lint.getD false
          && (preLintDiagnostics env sourceText options).isEmpty then
        [Stage.lintStage]
      else [])
        ++ (if !(resolvedSourceType env (options.parser.getD {})).isTypescriptDefinition
              && (options.run.getD {}).scope.getD false then
            [Stage.scopeRender]
          else [])
        ++ (if !(resolvedSourceType env (options.parser.getD {})).isTypescriptDefinition
              && (options.run.getD {}).symbol.getD false then
            [Stage.symbolRender]
          else [])
        ++ (match symbolErrOutcome env (options.run.getD {})
              (resolvedSourceType env (options.parser.getD {})) with
            | some _ => []
            | none =>
              tailTrace env (options.run.getD {}) (options.transformer.getD {})
                (options.minifier.getD {})
                (env.parse sourceText (mkParseOptions (options.parser.getD {}))
                  (resolvedSourceType env (options.parser.getD {}))).program) := by
  unfold run
  dsimp only
  split <;> rename_i heq <;> rw [symbolStep_err_eq] at heq <;> rw [heq] <;>
    simp [runLinter_trace_eq, scopeStep_trace_eq, symbolStep_trace_eq,
      tailPhase_trace_eq, syntaxDiagStep_diagnostics_eq, preLintDiagnostics]

/- ===================== auxiliary facts ===================== -/

@[simp] theorem setMinifyWhitespace_run (o : OxcOptions) (w : Option Bool) :
    (setMinifyWhitespace o w).run = o.run := rfl

@[simp] theorem setMinifyWhitespace_parserField (o : OxcOptions) (w : Option Bool) :
    (setMinifyWhitespace o w).parser = o.parser := rfl

@[simp] theorem setMinifyWhitespace_linter (o : OxcOptions) (w : Option Bool) :
    (setMinifyWhitespace o w).linter = o.linter := rfl

@[simp] theorem setMinifyWhitespace_transformer (o : OxcOptions) (w : Option Bool) :
    (setMinifyWhitespace o w).transformer = o.transformer := rfl

@[simp] theorem setMinifyWhitespace_codegen (o : OxcOptions) (w : Option Bool) :
    (setMinifyWhitespace o w).codegen = o.codegen := rfl

@[simp] theorem setMinifyWhitespace_controlFlow (o : OxcOptions) (w : Option Bool) :
    (setMinifyWhitespace o w).controlFlow = o.controlFlow := rfl

@[simp] theorem setMinifyWhitespace_minifier (o : OxcOptions) (w : Option Bool) :
    (setMinifyWhitespace o w).minifier = some { o.minifier.getD {} with whitespace := w } := rfl

theorem tailPhase_minifier_irrelevant_in_id (env : Env) (ro : OxcRunOptions)
    (tr : OxcTransformerOptions) (mo₁ mo₂ : OxcMinifierOptions)
    (co : OxcCodegenOptions) (path : String) (p : ProgramData) (s : Oxc)
    (h1 : ro.transform.getD false = true)
    (h2 : tr.isolatedDeclarations = some true) :
    tailPhase env ro tr mo₁ co path p s = tailPhase env ro tr mo₂ co path p s := by
  unfold tailPhase
  rw [if_pos h1, if_pos h1, if_pos h2, if_pos h2]

theorem lintStage_not_mem_tailTrace (env : Env) (ro : OxcRunOptions)
    (tr : OxcTransformerOptions) (mo : OxcMinifierOptions) (p : ProgramData) :
    Stage.lintStage ∉ tailTrace env ro tr mo p := by
  unfold tailTrace; split_ifs <;> simp

theorem scopeRender_not_mem_tailTrace (env : Env) (ro : OxcRunOptions)
    (tr : OxcTransformerOptions) (mo : OxcMinifierOptions) (p : ProgramData) :
    Stage.scopeRender ∉ tailTrace env ro tr mo p := by
  unfold tailTrace; split_ifs <;> simp

theorem symbolRender_not_mem_tailTrace (env : Env) (ro : OxcRunOptions)
    (tr : OxcTransformerOptions) (mo : OxcMinifierOptions) (p : ProgramData) :
    Stage.symbolRender ∉ tailTrace env ro tr mo p := by
  unfold tailTrace; split_ifs <;> simp

theorem tailTrace_id_eq (env : Env) (ro : OxcRunOptions)
    (tr : OxcTransformerOptions) (mo : OxcMinifierOptions) (p : ProgramData)
    (h1 : ro.transform.getD false = true)
    (h2 : tr.isolatedDeclarations = some true) :
    tailTrace env ro tr mo p =
      if (env.isolatedDeclarations p).2.isEmpty then
        [Stage.isolatedDecl, Stage.idCodegen]
      else [Stage.isolatedDecl] := by
  unfold tailTrace
  rw [if_pos h1, if_pos h2]

/- ============= span-translation facts (spec-modelled converter) ============= -/

theorem byteLen_nil : byteLen [] = 0 := rfl

theorem byteLen_cons (c : Char) (cs : List Char) :
    byteLen (c :: cs) = utf8Size c + byteLen cs := by
  simp [byteLen]

theorem byteLen_append (a b : List Char) :
    byteLen (a ++ b) = byteLen a + byteLen b := by
  simp [byteLen]

theorem utf8Size_ascii (c : Char) (h : c.val.toNat < 128) : utf8Size c = 1 := by
  unfold utf8Size
  rw [if_pos h]

theorem utf16Size_ascii (c : Char) (h : c.val.toNat < 128) : utf16Size c = 1 := by
  unfold utf16Size
  rw [if_pos (by omega)]

theorem utf8Size_supplementary (c : Char) (h : 0x10000 ≤ c.val.toNat) :
    utf8Size c = 4 := by
  unfold utf8Size
  rw [if_neg (by omega), if_neg (by omega), if_neg (by omega)]

theorem utf16Size_supplementary (c : Char) (h : 0x10000 ≤ c.val.toNat) :
    utf16Size c = 2 := by
  unfold utf16Size
  rw [if_neg (by omega)]

theorem convertOffset_zero (text : List Char) : convertOffset text 0 = 0 := by
  cases text <;> rfl

theorem convertOffset_cons (c : Char) (cs : List Char) (n : Nat) :
    convertOffset (c :: cs) (n + 1) =
      utf16Size c + convertOffset cs (n + 1 - utf8Size c) := rfl

theorem convertOffset_ascii (text : List Char)
    (h : ∀ c ∈ text, c.val.toNat < 128) :
    ∀ n, n ≤ byteLen text → convertOffset text n = n := by
  induction text with
  | nil =>
    intro n hn
    rw [byteLen_nil] at hn
    have hn0 : n = 0 := Nat.le_zero.mp hn
    subst hn0
    exact convertOffset_zero []
  | cons c cs ih =>
    intro n hn
    match n with
    | 0 => exact convertOffset_zero _
    | m + 1 =>
      have hc : c.val.toNat < 128 := h c (List.mem_cons_self c cs)
      rw [convertOffset_cons, utf16Size_ascii c hc, utf8Size_ascii c hc]
      have hm : m ≤ byteLen cs := by
        rw [byteLen_cons, utf8Size_ascii c hc] at hn
        omega
      rw [Nat.add_sub_cancel, ih (fun x hx => h x (List.mem_cons_of_mem c hx)) m hm]
      omega

theorem convertOffset_after_supplementary (pre post : List Char) (ch : Char)
    (hpre : ∀ c ∈ pre, c.val.toNat < 128)
    (hpost : ∀ c ∈ post, c.val.toNat < 128)
    (hch : 0x10000 ≤ ch.val.toNat) :
    ∀ n, byteLen pre + 4 ≤ n → n ≤ byteLen (pre ++ ch :: post) →
      convertOffset (pre ++ ch :: post) n = n - 2 := by
  induction pre with
  | nil =>
    intro n h1 h2
    rw [byteLen_nil] at h1
    match n, h1 with
    | m + 1, _ =>
      rw [List.nil_append] at h2 ⊢
      rw [convertOffset_cons, utf16Size_supplementary ch hch,
        utf8Size_supplementary ch hch]
      have hble : m + 1 - 4 ≤ byteLen post := by
        rw [byteLen_cons, utf8Size_supplementary ch hch] at h2
        omega
      rw [convertOffset_ascii post hpost _ hble]
      omega
  | cons a pre ih =>
    intro n h1 h2
    have ha : a.val.toNat < 128 := hpre a (List.mem_cons_self a pre)
    rw [byteLen_cons, utf8Size_ascii a ha] at h1
    match n, h1 with
    | m + 1, _ =>
      rw [List.cons_append] at h2 ⊢
      rw [convertOffset_cons, utf16Size_ascii a ha, utf8Size_ascii a ha,
        Nat.add_sub_cancel]
      rw [byteLen_cons, utf8Size_ascii a ha] at h2
      rw [ih (fun x hx => hpre x (List.mem_cons_of_mem a hx)) m (by omega) (by omega)]
      omega

/-- Stage-trace bound for an isolated-declarations run: only the lint,
scope-render, symbol-render, isolated-declarations and its codegen stages
can appear in the trace. -/
theorem run_id_trace_mem (env : Env) (sourceText : String) (options : OxcOptions)
    (self : Oxc)
    (htr : (options.run.getD {}).transform.getD false = true)
    (hid : (options.transformer.getD {}).isolatedDeclarations = some true)
    (x : Stage) (hx : x ∈ (run env sourceText options self).trace) :
    x = Stage.lintStage ∨ x = Stage.scopeRender ∨ x = Stage.symbolRender
      ∨ x = Stage.isolatedDecl ∨ x = Stage.idCodegen := by
  rw [run_trace_eq] at hx
  rcases hso : symbolErrOutcome env (options.run.getD {})
      (resolvedSourceType env (options.parser.getD {})) with _ | e <;>
    rw [hso] at hx
  · rw [tailTrace_id_eq _ _ _ _ _ htr hid] at hx
    split_ifs at hx <;> simp_all [List.mem_append] <;> tauto
  · split_ifs at hx <;> simp_all [List.mem_append] <;> tauto

/- ===================== claims ===================== -/

/-- C1: run returns an error to the caller exactly when the symbol-table
JSON serialization fails, i.e. when the symbol view is requested, the
resolved source type is not a declaration file, and the serializer errors;
every other stage failure degrades to diagnostics and run completes
normally. -/
theorem run_error_iff_serialization (env : Env) (sourceText : String)
    (options : OxcOptions) (self : Oxc) (e : String) :
    (run env sourceText options self).res = Except.error e ↔
      ((options.run.getD {}).symbol.getD false = true
        ∧ (resolvedSourceType env (options.parser.getD {})).isTypescriptDefinition = false
        ∧ env.serdeToStringPretty (getSymbolsData env.scoping) = Except.error e) := by
  rw [run_res_eq]
  unfold symbolErrOutcome getSymbolsText
  by_cases hc : (!(resolvedSourceType env (options.parser.getD {})).isTypescriptDefinition
      && (options.run.getD {}).symbol.getD false) = true
  · rw [if_pos hc]
    rw [Bool.and_eq_true, Bool.not_eq_true'] at hc
    rcases h : env.serdeToStringPretty (getSymbolsData env.scoping) with e' | j <;>
      simp [h, hc.1, hc.2]
  · rw [if_neg hc]
    constructor
    · intro hcontra
      simp at hcontra
    · rintro ⟨h1, h2, h3⟩
      exact absurd (by rw [h2, h1]; rfl) hc

/-- C2 counterexample: run does not reset every output field.  A first call
with the scope view on fills scopeText; a second call on the same driver
with the scope view off leaves the first call's text in place, so the
second result carries a value it did not write. -/
theorem run_no_reset_counterexample :
    (optsScopeOff.run.getD {}).scope.getD false = false
    ∧ (run envBase "let x" optsScopeOff
        (run envBase "let x" optsScopeOn Oxc.default).st).st.scopeText
      = "Scope 0 (Top) \x7b\n\x7d\n"
    ∧ ("Scope 0 (Top) \x7b\n\x7d\n" : String) ≠ "" := by
  refine ⟨rfl, by decide, by decide⟩

/-- C2 (amended): at the start of run only the diagnostics sink is reset —
the run result does not depend on the incoming diagnostics — while every
other field keeps its previous value unless the configured stages overwrite
it, exhibited here for scopeText, which retains the previous value whenever
the scope view does not execute. -/
theorem run_resets_only_diagnostics (env : Env) (sourceText : String)
    (options : OxcOptions) (self : Oxc) (d : List OxcDiag) :
    run env sourceText options { self with diagnostics := d }
      = run env sourceText options { self with diagnostics := [] }
    ∧ (run env sourceText options self).st.scopeText =
        (if !(resolvedSourceType env (options.parser.getD {})).isTypescriptDefinition
            && (options.run.getD {}).scope.getD false then
          getScopeText
            (env.parse sourceText (mkParseOptions (options.parser.getD {}))
              (resolvedSourceType env (options.parser.getD {}))).program
            env.scoping
        else self.scopeText) :=
  ⟨rfl, run_scopeText_eq env sourceText options self⟩

/-- C3: the lint stage executes iff linting is requested and the
diagnostics sink is empty at the lint gate; any already-recorded diagnostic
skips linting, which then contributes nothing. -/
theorem lint_gate_iff (env : Env) (sourceText : String) (options : OxcOptions)
    (self : Oxc) :
    Stage.lintStage ∈ (run env sourceText options self).trace ↔
      ((options.run.getD {}).lint.getD false = true
        ∧ preLintDiagnostics env sourceText options = []) := by
  rw [run_trace_eq]
  rcases hso : symbolErrOutcome env (options.run.getD {})
      (resolvedSourceType env (options.parser.getD {})) with _ | e <;>
    split_ifs with h1 h2 h3 <;>
      simp_all [List.isEmpty_iff, Bool.and_eq_true, lintStage_not_mem_tailTrace]

/-- C4 counterexample: a diagnostic with a present-but-empty label list has
zero labels yet flattens to zero records, not to one record at offsets 0,0
as the claim requires. -/
theorem flatten_zero_labels_counterexample :
    (diagEmptyLabelList.labels.getD []).length = 0
    ∧ getDiagnostics { Oxc.default with diagnostics := [diagEmptyLabelList] } = [] := by
  refine ⟨rfl, rfl⟩

/-- C4 (amended): flattening maps each sink diagnostic, in arrival order,
to one record per label when a label list is present (so an empty list
yields zero records), each record carrying the parent's severity and
message with start and stop drawn from the label; a diagnostic whose label
field is absent yields exactly one record at offsets 0,0. -/
theorem flatten_projection_amended (self : Oxc) :
    getDiagnostics self = (self.diagnostics.map flattenDiag).flatten
    ∧ (∀ d : OxcDiag, d.labels = none →
        flattenDiag d =
          [{ start := 0, stop := 0, severity := d.severity, message := d.message }])
    ∧ (∀ d : OxcDiag, ∀ ls : List Label, d.labels = some ls →
        flattenDiag d = ls.map fun l =>
          { start := l.offset, stop := l.offset + l.len,
            severity := d.severity, message := d.message }) := by
  refine ⟨rfl, ?_, ?_⟩
  · intro d h
    unfold flattenDiag
    rw [h]
  · intro d ls h
    unfold flattenDiag
    rw [h]

/-- C4 witness: the amended projection evaluated on a one-label and a
no-label diagnostic. -/
theorem flatten_projection_amended_witness :
    flattenDiag { severity := "Warning", message := "w", labels := none }
      = [{ start := 0, stop := 0, severity := "Warning", message := "w" }]
    ∧ flattenDiag
        { severity := "Error", message := "m", labels := some [{ offset := 3, len := 2 }] }
      = [{ start := 3, stop := 5, severity := "Error", message := "m" }] := by
  constructor
  · exact (flatten_projection_amended Oxc.default).2.1 _ rfl
  · exact (flatten_projection_amended Oxc.default).2.2
      { severity := "Error", message := "m", labels := some [{ offset := 3, len := 2 }] }
      [{ offset := 3, len := 2 }] rfl

/-- C5: with the isolated-declarations transform selected, run early-exits
after the isolated-declarations codegen: the whole result is independent of
the minifyWhitespace flag, and the minify, final-codegen and AST-conversion
stages never execute. -/
theorem isolated_declarations_short_circuit (env : Env) (sourceText : String)
    (options : OxcOptions) (self : Oxc) (w₁ w₂ : Option Bool)
    (htr : (options.run.getD {}).transform.getD false = true)
    (hid : (options.transformer.getD {}).isolatedDeclarations = some true) :
    run env sourceText (setMinifyWhitespace options w₁) self
      = run env sourceText (setMinifyWhitespace options w₂) self
    ∧ Stage.minifyStage ∉ (run env sourceText (setMinifyWhitespace options w₁) self).trace
    ∧ Stage.codegenStage ∉ (run env sourceText (setMinifyWhitespace options w₁) self).trace
    ∧ Stage.astConvert ∉ (run env sourceText (setMinifyWhitespace options w₁) self).trace := by
  refine ⟨?_, ?_, ?_, ?_⟩
  · unfold run
    dsimp only
    simp only [setMinifyWhitespace_run, setMinifyWhitespace_parserField,
      setMinifyWhitespace_transformer, setMinifyWhitespace_codegen,
      setMinifyWhitespace_controlFlow, setMinifyWhitespace_minifier, Option.getD_some]
    split
    · rfl
    · rw [tailPhase_minifier_irrelevant_in_id env _ _ _
        { options.minifier.getD {} with whitespace := w₂ } _ _ _ _ htr hid]
  all_goals
    intro hx
    rcases run_id_trace_mem env sourceText (setMinifyWhitespace options w₁) self
        htr hid _ hx with h | h | h | h | h <;>
      exact absurd h (by decide)

/-- C5 witness: the short circuit evaluated on a concrete environment and
the isolated-declarations configuration, with the whitespace flag toggled. -/
theorem isolated_declarations_witness :
    run envBase "" (setMinifyWhitespace optsId (some true)) Oxc.default
      = run envBase "" (setMinifyWhitespace optsId (some false)) Oxc.default
    ∧ Stage.minifyStage
        ∉ (run envBase "" (setMinifyWhitespace optsId (some true)) Oxc.default).trace
    ∧ Stage.codegenStage
        ∉ (run envBase "" (setMinifyWhitespace optsId (some true)) Oxc.default).trace
    ∧ Stage.astConvert
        ∉ (run envBase "" (setMinifyWhitespace optsId (some true)) Oxc.default).trace :=
  isolated_declarations_short_circuit envBase "" optsId Oxc.default
    (some true) (some false) rfl rfl

/-- C6: parser and semantic errors are recorded in the sink iff syntax
diagnostics are requested: with the flag on they are the first entries of
the final diagnostics list; with the flag off the whole run result's
diagnostics are independent of what those errors were. -/
theorem syn_diag_recording_iff (env : Env) (sourceText : String)
    (options : OxcOptions) (self : Oxc) (pe se : List OxcDiag) :
    ((options.run.getD {}).synDiags.getD false = true →
      ∃ rest, (run env sourceText options self).st.diagnostics =
        (env.parse sourceText (mkParseOptions (options.parser.getD {}))
            (resolvedSourceType env (options.parser.getD {}))).errors
          ++ env.semanticErrors ++ rest)
    ∧ ((options.run.getD {}).synDiags.getD false = false →
      (run { env with
          parse := fun s po st => { env.parse s po st with errors := pe },
          semanticErrors := se } sourceText options self).st.diagnostics
        = (run { env with
            parse := fun s po st => { env.parse s po st with errors := [] },
            semanticErrors := [] } sourceText options self).st.diagnostics) := by
  constructor
  · intro h
    have hp : preLintDiagnostics env sourceText options =
        (env.parse sourceText (mkParseOptions (options.parser.getD {}))
            (resolvedSourceType env (options.parser.getD {}))).errors
          ++ env.semanticErrors := by
      unfold preLintDiagnostics
      rw [if_pos h]
    rw [run_diagnostics_eq, hp]
    exact ⟨_, List.append_assoc _ _ _⟩
  · intro h
    rw [run_diagnostics_eq, run_diagnostics_eq]
    unfold preLintDiagnostics symbolErrOutcome getSymbolsText tailDiagSuffix
      targetDiagSuffix resolvedTargetHandle resolvedSourceType
    simp [h]

/-- C6 witness: with syntax diagnostics requested, the parser error and the
semantic error head the diagnostics list. -/
theorem syn_diag_recording_witness :
    ∃ rest, (run envSyn "" optsSyn Oxc.default).st.diagnostics
      = [OxcDiag.error "syn"] ++ [OxcDiag.error "sem"] ++ rest :=
  (syn_diag_recording_iff envSyn "" optsSyn Oxc.default [] []).1 rfl

/-- C7: when the resolved source type is a TypeScript declaration file,
the scope view and the symbol view are skipped regardless of their request
flags: neither renderer runs and both result fields stay empty. -/
theorem ts_definition_skips_views (env : Env) (sourceText : String)
    (options : OxcOptions) (self : Oxc)
    (hts : (resolvedSourceType env (options.parser.getD {})).isTypescriptDefinition = true)
    (hsc : self.scopeText = "") (hsy : self.symbolsJson = "") :
    (run env sourceText options self).st.scopeText = ""
    ∧ (run env sourceText options self).st.symbolsJson = ""
    ∧ Stage.scopeRender ∉ (run env sourceText options self).trace
    ∧ Stage.symbolRender ∉ (run env sourceText options self).trace := by
  refine ⟨?_, ?_, ?_, ?_⟩
  · rw [run_scopeText_eq]
    simp [hts, hsc]
  · rw [run_symbolsJson_eq]
    simp [hts, hsy]
  all_goals
    intro hx
    rw [run_trace_eq] at hx
    rcases hso : symbolErrOutcome env (options.run.getD {})
        (resolvedSourceType env (options.parser.getD {})) with _ | e <;>
      rw [hso] at hx <;>
        split_ifs at hx <;>
          simp_all [List.mem_append, scopeRender_not_mem_tailTrace,
            symbolRender_not_mem_tailTrace]

/-- C7 witness: a declaration-file environment with both views requested
leaves both fields empty and runs neither renderer. -/
theorem ts_definition_skips_views_witness :
    (run envTs "" optsViews Oxc.default).st.scopeText = ""
    ∧ (run envTs "" optsViews Oxc.default).st.symbolsJson = ""
    ∧ Stage.scopeRender ∉ (run envTs "" optsViews Oxc.default).trace
    ∧ Stage.symbolRender ∉ (run envTs "" optsViews Oxc.default).trace :=
  ts_definition_skips_views envTs "" optsViews Oxc.default rfl rfl rfl

/-- C8: for ASCII-only text the byte-to-code-unit translation is the
identity on spans within the text — hence on every tree span converted by
convertProgram and every comment span mapped by mapComments — and for a
text containing exactly one 4-byte, 2-code-unit character every span
starting after it is shifted by exactly two. -/
theorem span_translation_identity_and_shift (text : List Char) :
    ((∀ c ∈ text, c.val.toNat < 128) →
      (∀ sp : Span, sp.start ≤ byteLen text → sp.stop ≤ byteLen text →
        convertSpan text sp = sp)
      ∧ (∀ comments : List RawComment,
          (∀ rc ∈ comments, rc.span.start ≤ byteLen text ∧ rc.span.stop ≤ byteLen text) →
          (mapComments text comments).map (fun c => (c.start, c.stop))
            = comments.map (fun rc => (rc.span.start, rc.span.stop)))
      ∧ (∀ p : ProgramData, p.sourceText = text →
          (∀ sp ∈ p.spans, sp.start ≤ byteLen text ∧ sp.stop ≤ byteLen text) →
          (convertProgram p).spans = p.spans))
    ∧ (∀ pre ch post, text = pre ++ ch :: post →
        (∀ c ∈ pre, c.val.toNat < 128) → (∀ c ∈ post, c.val.toNat < 128) →
        0x10000 ≤ ch.val.toNat →
        utf8Size ch = 4 ∧ utf16Size ch = 2
        ∧ (∀ sp : Span, byteLen pre + 4 ≤ sp.start → sp.stop ≤ byteLen text →
            sp.start ≤ sp.stop →
            convertSpan text sp = { start := sp.start - 2, stop := sp.stop - 2 })) := by
  constructor
  · intro hascii
    have hid : ∀ sp : Span, sp.start ≤ byteLen text → sp.stop ≤ byteLen text →
        convertSpan text sp = sp := by
      intro sp h1 h2
      unfold convertSpan
      rw [convertOffset_ascii text hascii _ h1, convertOffset_ascii text hascii _ h2]
    refine ⟨hid, ?_, ?_⟩
    · intro comments hcb
      unfold mapComments
      rw [List.map_map]
      apply List.map_congr_left
      intro rc hrc
      obtain ⟨hb1, hb2⟩ := hcb rc hrc
      have := hid rc.span hb1 hb2
      simp only [Function.comp]
      rw [this]
    · intro p hp hsp
      unfold convertProgram
      simp only []
      rw [hp]
      have : ∀ sp ∈ p.spans, convertSpan text sp = id sp := by
        intro sp h
        obtain ⟨h1, h2⟩ := hsp sp h
        rw [hid sp h1 h2]
        rfl
      rw [List.map_congr_left this, List.map_id]
  · intro pre ch post htext hpre hpost hch
    refine ⟨utf8Size_supplementary ch hch, utf16Size_supplementary ch hch, ?_⟩
    intro sp h1 h2 h3
    subst htext
    unfold convertSpan
    rw [convertOffset_after_supplementary pre post ch hpre hpost hch sp.start h1
        (le_trans h3 h2),
      convertOffset_after_supplementary pre post ch hpre hpost hch sp.stop
        (le_trans h1 h3) h2]

/-- C8 witness: the identity on an ASCII text and the minus-two shift after
a supplementary-plane character, at concrete spans. -/
theorem span_translation_witness :
    convertSpan ['a', 'b'] { start := 1, stop := 2 } = { start := 1, stop := 2 }
    ∧ convertSpan ['a', '𝄞', 'b'] { start := 5, stop := 6 }
      = { start := 3, stop := 4 } := by
  constructor
  · exact (span_translation_identity_and_shift ['a', 'b']).1 (by decide) |>.1
      { start := 1, stop := 2 } (by decide) (by decide)
  · exact ((span_translation_identity_and_shift ['a', '𝄞', 'b']).2 ['a'] '𝄞' ['b']
      rfl (by decide) (by decide) (by decide)).2.2
      { start := 5, stop := 6 } (by decide) (by decide) (by decide)

/-- C9: with linting on and syntax diagnostics off, a syntactically invalid
input still reaches the lint stage, because the gate only inspects the sink
and parser errors were never recorded there: lint runs and its diagnostics
are the only ones reported. -/
theorem lint_runs_on_invalid_without_syn_diags :
    (envLint.parse "bad(" (mkParseOptions (optsLintNoSyn.parser.getD {}))
        (resolvedSourceType envLint (optsLintNoSyn.parser.getD {}))).errors ≠ []
    ∧ (optsLintNoSyn.run.getD {}).lint.getD false = true
    ∧ (optsLintNoSyn.run.getD {}).synDiags.getD false = false
    ∧ Stage.lintStage ∈ (run envLint "bad(" optsLintNoSyn Oxc.default).trace
    ∧ (run envLint "bad(" optsLintNoSyn Oxc.default).st.diagnostics
      = envLint.lintDiags := by
  refine ⟨by decide, rfl, rfl, by decide, by decide⟩

/-- C10: the control-flow-graph text field is stored on every run — no
configuration flag suppresses it — and its content depends on the
configuration only through the verbosity flag. -/
theorem cfg_text_unconditional (env : Env) (sourceText : String)
    (options : OxcOptions) (self : Oxc) :
    (run env sourceText options self).st.controlFlowGraph =
      cfgText env ((options.controlFlow.getD {}).verbose.getD false) :=
  run_controlFlowGraph_eq env sourceText options self

end Playground
